import Mathlib

/-!
Shallow embedding of src/crend/main.c.

The Vulkan backend (instance layers, physical devices, queue families,
creation entry points) is modelled as an explicit record of data and
functions; the global variables of main.c become a state record threaded
through the initialization functions.  Machine integers are Nat; no
arithmetic in the source can overflow 32 bits for the inputs modelled.
The queue priority constant 1.0f is represented exactly as the rational 1.
-/

/-- Queue capability flag bits, values as in vulkan.h. -/
def VK_QUEUE_GRAPHICS_BIT : Nat := 1

/-- Compute capability bit (vulkan.h value 0x2). -/
def VK_QUEUE_COMPUTE_BIT : Nat := 2

/-- Transfer capability bit (vulkan.h value 0x4). -/
def VK_QUEUE_TRANSFER_BIT : Nat := 4

/-- Version packing macro VK_MAKE_VERSION from vulkan.h. -/
def VK_MAKE_VERSION (major minor patch : Nat) : Nat :=
  (major <<< 22) ||| (minor <<< 12) ||| patch

/-- VK_API_VERSION_1_0 from vulkan.h. -/
def VK_API_VERSION_1_0 : Nat := VK_MAKE_VERSION 1 0 0

/-- The validation layer name constant, main.c line 7. -/
def VALIDATION_LAYER_NAME : String := "VK_LAYER_KHRONOS_validation"

/-- Result code SUCCESS, main.c line 9. -/
def SUCCESS : Nat := 0

/-- Result code ERROR_INSTANCE_CREATION, main.c line 10. -/
def ERROR_INSTANCE_CREATION : Nat := 1

/-- Result code ERROR_VALIDATION_LAYERS, main.c line 11. -/
def ERROR_VALIDATION_LAYERS : Nat := 2

/-- Result code ERROR_VULKAN_UNSUPPORTED, main.c line 12. -/
def ERROR_VULKAN_UNSUPPORTED : Nat := 3

/-- Result code ERROR_NO_COMPATIBLE_QUEUE, main.c line 13. -/
def ERROR_NO_COMPATIBLE_QUEUE : Nat := 4

/-- Result code ERROR_CANNOT_CREATE_LOGICAL_DEVICE, main.c line 14. -/
def ERROR_CANNOT_CREATE_LOGICAL_DEVICE : Nat := 5

/-- One VkQueueFamilyProperties record: only the queueFlags field is read
by main.c. -/
structure VkQueueFamilyProperties where
  queueFlags : Nat
deriving DecidableEq

/-- A physical device: an opaque identity plus the queue family properties
that vkGetPhysicalDeviceQueueFamilyProperties reports for it. -/
structure PhysicalDevice where
  id : Nat
  queueFamilies : List VkQueueFamilyProperties
deriving DecidableEq

/-- VkApplicationInfo as populated in initInstance (main.c lines 44-50). -/
structure VkApplicationInfo where
  pApplicationName : String
  applicationVersion : Nat
  pEngineName : String
  engineVersion : Nat
  apiVersion : Nat
deriving DecidableEq

/-- VkInstanceCreateInfo as populated in initInstance (main.c lines 52-68). -/
structure VkInstanceCreateInfo where
  pApplicationInfo : VkApplicationInfo
  enabledExtensionNames : List String
  enabledLayerNames : List String
deriving DecidableEq

/-- VkDeviceQueueCreateInfo as populated in initLogicalDevice
(main.c lines 113-117). -/
structure VkDeviceQueueCreateInfo where
  queueFamilyIndex : Nat
  queueCount : Nat
  queuePriorities : List ℚ
deriving DecidableEq

/-- VkDeviceCreateInfo as populated in initLogicalDevice
(main.c lines 121-137). -/
structure VkDeviceCreateInfo where
  queueCreateInfos : List VkDeviceQueueCreateInfo
  enabledExtensionCount : Nat
  enabledLayerNames : List String
deriving DecidableEq

/-- The Vulkan backend: the data its enumeration calls return and the
behaviour of its creation calls.  Creation functions return some handle on
success and none on failure. -/
structure Backend where
  instanceLayers : List String
  physicalDevices : List PhysicalDevice
  vkCreateInstance : VkInstanceCreateInfo → Option Nat
  vkCreateDevice : Option PhysicalDevice → VkDeviceCreateInfo → Option Nat
  vkGetDeviceQueue : Nat → Nat → Nat → Nat

/-- The global variables of main.c lines 16-20.  VK_NULL_HANDLE and
not-yet-written handles are modelled as none. -/
structure CrendState where
  instanceHandle : Option Nat
  physicalDevice : Option PhysicalDevice
  queueFamilyIndex : Nat
  device : Option Nat
  primaryQueue : Option Nat
deriving DecidableEq

/-- Loop of checkValidationLayerSupport (main.c lines 28-33): scan the
enumerated layers for one whose name strcmp-equals VALIDATION_LAYER_NAME. -/
def containsValidationLayer : List String → Bool
  | [] => false
  | l :: rest => if VALIDATION_LAYER_NAME = l then true else containsValidationLayer rest

/-- checkValidationLayerSupport (main.c lines 22-37): enumerate the instance
layer properties and search them for the validation layer name. -/
def checkValidationLayerSupport (backend : Backend) : Bool :=
  containsValidationLayer backend.instanceLayers

/-- The VkApplicationInfo literal of initInstance (main.c lines 44-50). -/
def appInfo : VkApplicationInfo :=
  { pApplicationName := "Test"
    applicationVersion := VK_MAKE_VERSION 1 0 0
    pEngineName := "No Engine"
    engineVersion := VK_MAKE_VERSION 1 0 0
    apiVersion := VK_API_VERSION_1_0 }

/-- The VkInstanceCreateInfo passed to vkCreateInstance (main.c lines 52-68):
extension names from the caller; the single validation layer name when
validation is on, an empty layer list otherwise. -/
def instanceCreateInfo (requiredExtensions : List String)
    (useValidationLayers : Bool) : VkInstanceCreateInfo :=
  { pApplicationInfo := appInfo
    enabledExtensionNames := requiredExtensions
    enabledLayerNames := if useValidationLayers then [VALIDATION_LAYER_NAME] else [] }

/-- initInstance (main.c lines 39-76).  The requiredExtensions array and its
length are modelled as a single list. -/
def initInstance (requiredExtensions : List String) (useValidationLayers : Bool)
    (backend : Backend) (st : CrendState) : CrendState × Nat :=
  if useValidationLayers && ! checkValidationLayerSupport backend then
    (st, ERROR_VALIDATION_LAYERS)
  else
    match backend.vkCreateInstance (instanceCreateInfo requiredExtensions useValidationLayers) with
    | none => (st, ERROR_INSTANCE_CREATION)
    | some h => ({ st with instanceHandle := some h }, SUCCESS)

/-- Queue family search loop of initPhysicalDevice (main.c lines 98-104),
with the running index i carried explicitly: return the current index when
the family's flags contain every required flag, else continue. -/
def findQueueFamilyAux (required : Nat) :
    List VkQueueFamilyProperties → Nat → Option Nat
  | [], _ => none
  | f :: rest, i =>
    if f.queueFlags &&& required = required then some i
    else findQueueFamilyAux required rest (i + 1)

/-- The queue family search started at index 0, as the loop of main.c
lines 98-104 does. -/
def findQueueFamily (families : List VkQueueFamilyProperties)
    (required : Nat) : Option Nat :=
  findQueueFamilyAux required families 0

/-- The required capability mask of initPhysicalDevice (main.c line 97). -/
def requiredFlags : Nat :=
  VK_QUEUE_GRAPHICS_BIT ||| VK_QUEUE_COMPUTE_BIT ||| VK_QUEUE_TRANSFER_BIT

/-- Loop of main.c lines 87-90: the physicalDevice global receives the first
enumerated device and the loop breaks; with nothing enumerated the global
keeps its previous value. -/
def pickFirstDevice (enumerated : List PhysicalDevice) (st : CrendState) : CrendState :=
  match enumerated with
  | [] => st
  | d :: _ => { st with physicalDevice := some d }

/-- vkGetPhysicalDeviceQueueFamilyProperties on the stored handle
(main.c lines 93-96).  Calling it on VK_NULL_HANDLE is undefined behaviour
in C; it is modelled as reporting no queue families. -/
def familiesOf : Option PhysicalDevice → List VkQueueFamilyProperties
  | none => []
  | some d => d.queueFamilies

/-- Lines 93-107 of main.c: enumerate the queue families of the stored
physical device and search them for the required flags; on a hit store the
index and succeed, otherwise fail with ERROR_NO_COMPATIBLE_QUEUE. -/
def finishSelect (st : CrendState) : CrendState × Nat :=
  match findQueueFamily (familiesOf st.physicalDevice) requiredFlags with
  | some i => ({ st with queueFamilyIndex := i }, SUCCESS)
  | none => (st, ERROR_NO_COMPATIBLE_QUEUE)

/-- Lines 85-107 of main.c: vkEnumeratePhysicalDevices writes
min(deviceCount, available) devices (hence List.take), the first one is
stored, then its queue families are searched. -/
def selectDeviceAndQueue (deviceCount : Nat) (backend : Backend)
    (st : CrendState) : CrendState × Nat :=
  finishSelect (pickFirstDevice (backend.physicalDevices.take deviceCount) st)

/-- initPhysicalDevice (main.c lines 78-108).  Note: line 80 obtains
deviceCount from vkEnumerateInstanceLayerProperties, so the count guarded
against zero and passed to vkEnumeratePhysicalDevices is the number of
instance layers, not the number of physical devices. -/
def initPhysicalDevice (backend : Backend) (st : CrendState) : CrendState × Nat :=
  if backend.instanceLayers.length = 0 then (st, ERROR_VULKAN_UNSUPPORTED)
  else selectDeviceAndQueue backend.instanceLayers.length backend st

/-- The VkDeviceCreateInfo passed to vkCreateDevice (main.c lines 111-137):
a single queue request on the given family with queueCount 1 and priority
1.0, no device extensions, and the validation layer name when validation
is on. -/
def deviceCreateInfoOf (qfi : Nat) (useValidationLayers : Bool) : VkDeviceCreateInfo :=
  { queueCreateInfos := [{ queueFamilyIndex := qfi, queueCount := 1, queuePriorities := [1] }]
    enabledExtensionCount := 0
    enabledLayerNames := if useValidationLayers then [VALIDATION_LAYER_NAME] else [] }

/-- initLogicalDevice (main.c lines 110-146): re-check validation layer
support, create the logical device, and fetch queue 0 of the selected
family as the primary queue. -/
def initLogicalDevice (useValidationLayers : Bool) (backend : Backend)
    (st : CrendState) : CrendState × Nat :=
  if useValidationLayers && ! checkValidationLayerSupport backend then
    (st, ERROR_VALIDATION_LAYERS)
  else
    match backend.vkCreateDevice st.physicalDevice
        (deviceCreateInfoOf st.queueFamilyIndex useValidationLayers) with
    | none => (st, ERROR_CANNOT_CREATE_LOGICAL_DEVICE)
    | some dh =>
      ({ st with
          device := some dh
          primaryQueue := some (backend.vkGetDeviceQueue dh st.queueFamilyIndex 0) }, SUCCESS)

/-- crendInit (main.c lines 148-163): the three initialization steps in
order, returning at the first non-SUCCESS result. -/
def crendInit (requiredExtensions : List String) (useValidationLayers : Bool)
    (backend : Backend) (st : CrendState) : CrendState × Nat :=
  let r1 := initInstance requiredExtensions useValidationLayers backend st
  if r1.2 ≠ SUCCESS then r1 else
  let r2 := initPhysicalDevice backend r1.1
  if r2.2 ≠ SUCCESS then r2 else
  let r3 := initLogicalDevice useValidationLayers backend r2.1
  if r3.2 ≠ SUCCESS then r3 else
  (r3.1, SUCCESS)

/-- crendDestroy (main.c lines 165-168): release the device and instance
handles. -/
def crendDestroy (st : CrendState) : CrendState :=
  { st with device := none, instanceHandle := none }

/-! ### Concrete fixtures used by closed theorems -/

/-- The initial state of the globals of main.c lines 16-20. -/
def st0 : CrendState :=
  { instanceHandle := none
    physicalDevice := none
    queueFamilyIndex := 0
    device := none
    primaryQueue := none }

/-- A queue family carrying every required capability. -/
def capableFamily : VkQueueFamilyProperties := { queueFlags := requiredFlags }

/-- A device with one fully capable queue family. -/
def capableDevice : PhysicalDevice := { id := 0, queueFamilies := [capableFamily] }

/-- A transfer-only queue family. -/
def transferOnlyFamily : VkQueueFamilyProperties := { queueFlags := VK_QUEUE_TRANSFER_BIT }

/-- A device whose only queue family is transfer-only. -/
def transferOnlyDevice : PhysicalDevice := { id := 1, queueFamilies := [transferOnlyFamily] }

/-- A backend reporting zero instance layers but one fully capable device. -/
def noLayerBackend : Backend :=
  { instanceLayers := []
    physicalDevices := [capableDevice]
    vkCreateInstance := fun _ => some 11
    vkCreateDevice := fun _ _ => some 21
    vkGetDeviceQueue := fun _ _ _ => 31 }

/-- A backend with one layer and a single device with no compatible family. -/
def oneLayerBadBackend : Backend :=
  { instanceLayers := ["dummy"]
    physicalDevices := [transferOnlyDevice]
    vkCreateInstance := fun _ => some 11
    vkCreateDevice := fun _ _ => some 21
    vkGetDeviceQueue := fun _ _ _ => 31 }

/-- A backend whose first device has no compatible family while its second
device would satisfy the requirement. -/
def twoDeviceBackend : Backend :=
  { instanceLayers := ["dummy"]
    physicalDevices := [transferOnlyDevice, capableDevice]
    vkCreateInstance := fun _ => some 11
    vkCreateDevice := fun _ _ => some 21
    vkGetDeviceQueue := fun _ _ _ => 31 }

/-- A state holding a stale queue family index, to observe which fields a
failing selection overwrites. -/
def stPrior : CrendState := { st0 with queueFamilyIndex := 42 }

/-- A backend on which every initialization step succeeds. -/
def goodBackend : Backend :=
  { instanceLayers := [VALIDATION_LAYER_NAME]
    physicalDevices := [capableDevice]
    vkCreateInstance := fun _ => some 11
    vkCreateDevice := fun _ _ => some 21
    vkGetDeviceQueue := fun _ _ _ => 31 }

/-- A backend where instance creation and selection succeed but logical
device creation fails. -/
def deviceFailBackend : Backend :=
  { instanceLayers := ["dummy"]
    physicalDevices := [capableDevice]
    vkCreateInstance := fun _ => some 11
    vkCreateDevice := fun _ _ => none
    vkGetDeviceQueue := fun _ _ _ => 31 }

/-! ### Properties of the queue family search -/

/-- Starting the search loop one index later shifts every returned index by
one. -/
lemma findQueueFamilyAux_succ (req : Nat) (fams : List VkQueueFamilyProperties)
    (k : Nat) :
    findQueueFamilyAux req fams (k + 1) =
      Option.map (· + 1) (findQueueFamilyAux req fams k) := by
  induction fams generalizing k with
  | nil => simp [findQueueFamilyAux]
  | cons f rest ih =>
    by_cases h : f.queueFlags &&& req = req
    · simp [findQueueFamilyAux, h]
    · simp [findQueueFamilyAux, h, ih]

/-- Unfolding of the search on a non-empty family list. -/
lemma findQueueFamily_cons (req : Nat) (f : VkQueueFamilyProperties)
    (rest : List VkQueueFamilyProperties) :
    findQueueFamily (f :: rest) req =
      if f.queueFlags &&& req = req then some 0
      else Option.map (· + 1) (findQueueFamily rest req) := by
  by_cases h : f.queueFlags &&& req = req
  · simp [findQueueFamily, findQueueFamilyAux, h]
  · simp [findQueueFamily, findQueueFamilyAux, h, findQueueFamilyAux_succ]

/-- The search returns some index exactly when that index holds the first
family whose flags contain all required flags. -/
lemma findQueueFamily_eq_some_iff (families : List VkQueueFamilyProperties)
    (required i : Nat) :
    findQueueFamily families required = some i ↔
      ∃ f, families.get? i = some f ∧ f.queueFlags &&& required = required ∧
        ∀ j, j < i → ∀ g, families.get? j = some g →
          ¬(g.queueFlags &&& required = required) := by
  induction families generalizing i with
  | nil => simp [findQueueFamily, findQueueFamilyAux]
  | cons f rest ih =>
    rw [findQueueFamily_cons]
    by_cases h : f.queueFlags &&& required = required
    · rw [if_pos h]
      constructor
      · intro he
        have hi : i = 0 := by
          have := Option.some.inj he
          omega
        subst hi
        exact ⟨f, rfl, h, fun j hj => absurd hj (Nat.not_lt_zero j)⟩
      · rintro ⟨g, hg, hcond, hmin⟩
        cases i with
        | zero => rfl
        | succ n => exact absurd h (hmin 0 (Nat.succ_pos n) f rfl)
    · rw [if_neg h]
      cases i with
      | zero =>
        simp only [Option.map_eq_some']
        constructor
        · rintro ⟨a, _, ha⟩
          omega
        · rintro ⟨g, hg, hcond, _⟩
          rw [List.get?_cons_zero] at hg
          exact absurd (Option.some.inj hg ▸ hcond) h
      | succ n =>
        simp only [Option.map_eq_some']
        constructor
        · rintro ⟨a, hfind, ha⟩
          have han : a = n := by omega
          rw [han] at hfind
          obtain ⟨g, hg, hcond, hmin⟩ := (ih n).mp hfind
          refine ⟨g, by simpa using hg, hcond, ?_⟩
          intro j hj g' hg'
          cases j with
          | zero =>
            rw [List.get?_cons_zero] at hg'
            exact Option.some.inj hg' ▸ h
          | succ m =>
            rw [List.get?_cons_succ] at hg'
            exact hmin m (by omega) g' hg'
        · rintro ⟨g, hg, hcond, hmin⟩
          refine ⟨n, (ih n).mpr ⟨g, by simpa using hg, hcond, ?_⟩, rfl⟩
          intro j hj g' hg'
          exact hmin (j + 1) (by omega) g' (by simpa using hg')

/-- The search fails exactly when no family has all required flags. -/
lemma findQueueFamily_eq_none_iff (families : List VkQueueFamilyProperties)
    (required : Nat) :
    findQueueFamily families required = none ↔
      ∀ f ∈ families, ¬(f.queueFlags &&& required = required) := by
  induction families with
  | nil => simp [findQueueFamily, findQueueFamilyAux]
  | cons f rest ih =>
    rw [findQueueFamily_cons]
    by_cases h : f.queueFlags &&& required = required
    · simp [h]
    · simp [h, ih]

/-- With a positive count, enumeration hands the head of the device list to
the first-device loop. -/
lemma selectDeviceAndQueue_cons (deviceCount : Nat) (b : Backend)
    (st : CrendState) (d : PhysicalDevice) (rest : List PhysicalDevice)
    (hpos : 0 < deviceCount) (hdev : b.physicalDevices = d :: rest) :
    selectDeviceAndQueue deviceCount b st =
      finishSelect { st with physicalDevice := some d } := by
  unfold selectDeviceAndQueue
  rw [hdev]
  cases deviceCount with
  | zero => omega
  | succ n => simp [List.take_succ_cons, pickFirstDevice]

/-- A failed family search leaves the state as it stands and reports
ERROR_NO_COMPATIBLE_QUEUE. -/
lemma finishSelect_none (st : CrendState)
    (h : findQueueFamily (familiesOf st.physicalDevice) requiredFlags = none) :
    finishSelect st = (st, ERROR_NO_COMPATIBLE_QUEUE) := by
  simp [finishSelect, h]

/-- A successful family search stores the found index and succeeds. -/
lemma finishSelect_some (st : CrendState) (i : Nat)
    (h : findQueueFamily (familiesOf st.physicalDevice) requiredFlags = some i) :
    finishSelect st = ({ st with queueFamilyIndex := i }, SUCCESS) := by
  simp [finishSelect, h]

/-- The first-device loop on an empty enumeration leaves the state alone. -/
lemma pickFirstDevice_nil (st : CrendState) : pickFirstDevice [] st = st := rfl

/-- The first-device loop stores the head of a non-empty enumeration. -/
lemma pickFirstDevice_cons (d : PhysicalDevice) (rest : List PhysicalDevice)
    (st : CrendState) :
    pickFirstDevice (d :: rest) st = { st with physicalDevice := some d } := rfl

/-- The layer scan succeeds exactly when the validation layer name is among
the enumerated layers. -/
lemma containsValidationLayer_iff (layers : List String) :
    containsValidationLayer layers = true ↔ VALIDATION_LAYER_NAME ∈ layers := by
  induction layers with
  | nil => simp [containsValidationLayer]
  | cons l rest ih =>
    by_cases h : VALIDATION_LAYER_NAME = l
    · simp [containsValidationLayer, h]
    · simp [containsValidationLayer, h, ih]

/-- initInstance writes at most the instance handle; every other global is
untouched on all of its paths. -/
lemma initInstance_frame (exts : List String) (val : Bool) (b : Backend)
    (st : CrendState) :
    (initInstance exts val b st).1.physicalDevice = st.physicalDevice
    ∧ (initInstance exts val b st).1.queueFamilyIndex = st.queueFamilyIndex
    ∧ (initInstance exts val b st).1.device = st.device
    ∧ (initInstance exts val b st).1.primaryQueue = st.primaryQueue := by
  unfold initInstance
  cases hvb : (val && ! checkValidationLayerSupport b) with
  | true => simp [hvb]
  | false =>
    rcases hc : b.vkCreateInstance (instanceCreateInfo exts val) with _ | h <;>
      simp [hvb, hc]

/-- A SUCCESS result from initInstance means the instance handle was
written. -/
lemma initInstance_success_handle (exts : List String) (val : Bool) (b : Backend)
    (st : CrendState) (h : (initInstance exts val b st).2 = SUCCESS) :
    ∃ hI, (initInstance exts val b st).1.instanceHandle = some hI := by
  unfold initInstance at h ⊢
  cases hvb : (val && ! checkValidationLayerSupport b) with
  | true => simp [hvb, ERROR_VALIDATION_LAYERS, SUCCESS] at h
  | false =>
    rcases hc : b.vkCreateInstance (instanceCreateInfo exts val) with _ | hdl
    · simp [hvb, hc, ERROR_INSTANCE_CREATION, SUCCESS] at h
    · simp [hvb, hc]

/-- Selection (lines 85-107) writes at most the stored physical device and
queue family index. -/
lemma selectDeviceAndQueue_frame (k : Nat) (b : Backend) (st : CrendState) :
    (selectDeviceAndQueue k b st).1.instanceHandle = st.instanceHandle
    ∧ (selectDeviceAndQueue k b st).1.device = st.device
    ∧ (selectDeviceAndQueue k b st).1.primaryQueue = st.primaryQueue := by
  unfold selectDeviceAndQueue
  cases htake : b.physicalDevices.take k with
  | nil =>
    rw [pickFirstDevice_nil]
    rcases hfind : findQueueFamily (familiesOf st.physicalDevice) requiredFlags with _ | i
    · rw [finishSelect_none st hfind]; exact ⟨rfl, rfl, rfl⟩
    · rw [finishSelect_some st i hfind]; exact ⟨rfl, rfl, rfl⟩
  | cons d rest =>
    rw [pickFirstDevice_cons]
    rcases hfind : findQueueFamily (familiesOf (some d)) requiredFlags with _ | i
    · rw [finishSelect_none _ hfind]; exact ⟨rfl, rfl, rfl⟩
    · rw [finishSelect_some _ i hfind]; exact ⟨rfl, rfl, rfl⟩

/-- initPhysicalDevice writes at most the stored physical device and queue
family index. -/
lemma initPhysicalDevice_frame (b : Backend) (st : CrendState) :
    (initPhysicalDevice b st).1.instanceHandle = st.instanceHandle
    ∧ (initPhysicalDevice b st).1.device = st.device
    ∧ (initPhysicalDevice b st).1.primaryQueue = st.primaryQueue := by
  unfold initPhysicalDevice
  by_cases hl : b.instanceLayers.length = 0
  · rw [if_pos hl]; exact ⟨rfl, rfl, rfl⟩
  · rw [if_neg hl]; exact selectDeviceAndQueue_frame _ b st

/-- Running selection a second time from the state the first run produced
changes nothing. -/
lemma selectDeviceAndQueue_idem (k : Nat) (b : Backend) (st : CrendState) :
    selectDeviceAndQueue k b (selectDeviceAndQueue k b st).1 =
      selectDeviceAndQueue k b st := by
  cases htake : b.physicalDevices.take k with
  | nil =>
    have hpick : ∀ s : CrendState, pickFirstDevice (b.physicalDevices.take k) s = s := by
      intro s; rw [htake]; rfl
    rcases hfind : findQueueFamily (familiesOf st.physicalDevice) requiredFlags with _ | i
    · have h1 : selectDeviceAndQueue k b st = (st, ERROR_NO_COMPATIBLE_QUEUE) := by
        unfold selectDeviceAndQueue; rw [hpick]; exact finishSelect_none st hfind
      rw [h1]
      unfold selectDeviceAndQueue; rw [hpick]
      exact finishSelect_none st hfind
    · have h1 : selectDeviceAndQueue k b st =
          ({ st with queueFamilyIndex := i }, SUCCESS) := by
        unfold selectDeviceAndQueue; rw [hpick]; exact finishSelect_some st i hfind
      rw [h1]
      unfold selectDeviceAndQueue; rw [hpick]
      exact finishSelect_some { st with queueFamilyIndex := i } i hfind
  | cons d rest =>
    have hpick : ∀ s : CrendState,
        pickFirstDevice (b.physicalDevices.take k) s = { s with physicalDevice := some d } := by
      intro s; rw [htake]; rfl
    rcases hfind : findQueueFamily (familiesOf (some d)) requiredFlags with _ | i
    · have h1 : selectDeviceAndQueue k b st =
          ({ st with physicalDevice := some d }, ERROR_NO_COMPATIBLE_QUEUE) := by
        unfold selectDeviceAndQueue; rw [hpick]; exact finishSelect_none _ hfind
      rw [h1]
      unfold selectDeviceAndQueue; rw [hpick]
      exact finishSelect_none _ hfind
    · have h1 : selectDeviceAndQueue k b st =
          ({ st with physicalDevice := some d, queueFamilyIndex := i }, SUCCESS) := by
        unfold selectDeviceAndQueue; rw [hpick]; exact finishSelect_some _ i hfind
      rw [h1]
      unfold selectDeviceAndQueue; rw [hpick]
      exact finishSelect_some _ i hfind

/-- Running initPhysicalDevice a second time from the state the first run
produced changes nothing. -/
lemma initPhysicalDevice_idem (b : Backend) (st : CrendState) :
    initPhysicalDevice b (initPhysicalDevice b st).1 = initPhysicalDevice b st := by
  by_cases hl : b.instanceLayers.length = 0
  · unfold initPhysicalDevice
    simp [hl]
  · have h1 : initPhysicalDevice b st =
        selectDeviceAndQueue b.instanceLayers.length b st := by
      unfold initPhysicalDevice; rw [if_neg hl]
    have h2 : ∀ s : CrendState, initPhysicalDevice b s =
        selectDeviceAndQueue b.instanceLayers.length b s := by
      intro s; unfold initPhysicalDevice; rw [if_neg hl]
    rw [h1, h2]
    exact selectDeviceAndQueue_idem _ b st

/-- crendInit returns the instance step's result when that step fails. -/
lemma crendInit_eq_step1 (exts : List String) (val : Bool) (b : Backend)
    (st : CrendState) (h1 : (initInstance exts val b st).2 ≠ SUCCESS) :
    crendInit exts val b st = initInstance exts val b st := by
  simp [crendInit, h1]

/-- crendInit returns the selection step's result when instance creation
succeeded and selection fails. -/
lemma crendInit_eq_step2 (exts : List String) (val : Bool) (b : Backend)
    (st : CrendState) (h1 : (initInstance exts val b st).2 = SUCCESS)
    (h2 : (initPhysicalDevice b (initInstance exts val b st).1).2 ≠ SUCCESS) :
    crendInit exts val b st = initPhysicalDevice b (initInstance exts val b st).1 := by
  simp [crendInit, h1, h2]

/-- crendInit returns the logical-device step's result once the first two
steps succeeded. -/
lemma crendInit_eq_step3 (exts : List String) (val : Bool) (b : Backend)
    (st : CrendState) (h1 : (initInstance exts val b st).2 = SUCCESS)
    (h2 : (initPhysicalDevice b (initInstance exts val b st).1).2 = SUCCESS) :
    crendInit exts val b st =
      initLogicalDevice val b (initPhysicalDevice b (initInstance exts val b st).1).1 := by
  by_cases h3 : (initLogicalDevice val b
      (initPhysicalDevice b (initInstance exts val b st).1).1).2 = SUCCESS
  · simp only [crendInit, h1, h2, h3, ne_eq, not_true_eq_false, if_false]
    rw [← h3]
  · simp [crendInit, h1, h2, h3]

/-- crendInit succeeds exactly when all three steps succeed in sequence. -/
lemma crendInit_succ_iff (exts : List String) (val : Bool) (b : Backend)
    (st : CrendState) :
    (crendInit exts val b st).2 = SUCCESS ↔
      (initInstance exts val b st).2 = SUCCESS
      ∧ (initPhysicalDevice b (initInstance exts val b st).1).2 = SUCCESS
      ∧ (initLogicalDevice val b
          (initPhysicalDevice b (initInstance exts val b st).1).1).2 = SUCCESS := by
  by_cases h1 : (initInstance exts val b st).2 = SUCCESS
  · by_cases h2 : (initPhysicalDevice b (initInstance exts val b st).1).2 = SUCCESS
    · rw [crendInit_eq_step3 exts val b st h1 h2]
      simp [h1, h2]
    · rw [crendInit_eq_step2 exts val b st h1 h2]
      simp [h1, h2]
  · rw [crendInit_eq_step1 exts val b st h1]
    simp [h1]

/-- A failure of vkCreateDevice leaves the whole state unchanged. -/
lemma initLogicalDevice_fail_state (val : Bool) (b : Backend) (s : CrendState)
    (h : (initLogicalDevice val b s).2 = ERROR_CANNOT_CREATE_LOGICAL_DEVICE) :
    initLogicalDevice val b s = (s, ERROR_CANNOT_CREATE_LOGICAL_DEVICE) := by
  unfold initLogicalDevice at h ⊢
  cases hvb : (val && ! checkValidationLayerSupport b) with
  | true =>
    simp [hvb, ERROR_VALIDATION_LAYERS, ERROR_CANNOT_CREATE_LOGICAL_DEVICE] at h
  | false =>
    rcases hc : b.vkCreateDevice s.physicalDevice
        (deviceCreateInfoOf s.queueFamilyIndex val) with _ | dh
    · simp [hvb, hc]
    · simp [hvb, hc, SUCCESS, ERROR_CANNOT_CREATE_LOGICAL_DEVICE] at h

/-- A SUCCESS from initLogicalDevice pins down the vkCreateDevice call made
and the final state. -/
lemma initLogicalDevice_success_shape (val : Bool) (b : Backend) (s : CrendState)
    (h : (initLogicalDevice val b s).2 = SUCCESS) :
    ∃ dh, b.vkCreateDevice s.physicalDevice (deviceCreateInfoOf s.queueFamilyIndex val) = some dh
      ∧ initLogicalDevice val b s =
          ({ s with
              device := some dh
              primaryQueue := some (b.vkGetDeviceQueue dh s.queueFamilyIndex 0) }, SUCCESS) := by
  unfold initLogicalDevice at h ⊢
  cases hvb : (val && ! checkValidationLayerSupport b) with
  | true => simp [hvb, ERROR_VALIDATION_LAYERS, SUCCESS] at h
  | false =>
    rcases hc : b.vkCreateDevice s.physicalDevice
        (deviceCreateInfoOf s.queueFamilyIndex val) with _ | dh
    · simp [hvb, hc, ERROR_CANNOT_CREATE_LOGICAL_DEVICE, SUCCESS] at h
    · exact ⟨dh, rfl, by simp [hvb]⟩

/-- Selection reads the prior state only through the stored physical device
and queue family index; states agreeing there produce the same result code,
stored device and stored index. -/
lemma initPhysicalDevice_congr (b : Backend) (s s' : CrendState)
    (hphys : s.physicalDevice = s'.physicalDevice)
    (hq : s.queueFamilyIndex = s'.queueFamilyIndex) :
    (initPhysicalDevice b s).2 = (initPhysicalDevice b s').2
    ∧ (initPhysicalDevice b s).1.physicalDevice = (initPhysicalDevice b s').1.physicalDevice
    ∧ (initPhysicalDevice b s).1.queueFamilyIndex
        = (initPhysicalDevice b s').1.queueFamilyIndex := by
  unfold initPhysicalDevice
  by_cases hl : b.instanceLayers.length = 0
  · simp [hl, hphys, hq]
  · rw [if_neg hl, if_neg hl]
    unfold selectDeviceAndQueue
    cases htake : b.physicalDevices.take b.instanceLayers.length with
    | nil =>
      rw [pickFirstDevice_nil, pickFirstDevice_nil]
      rcases hfind : findQueueFamily (familiesOf s.physicalDevice) requiredFlags with _ | i
      · have hfind' : findQueueFamily (familiesOf s'.physicalDevice) requiredFlags = none := by
          rw [← hphys]; exact hfind
        rw [finishSelect_none s hfind, finishSelect_none s' hfind']
        exact ⟨rfl, hphys, hq⟩
      · have hfind' : findQueueFamily (familiesOf s'.physicalDevice) requiredFlags = some i := by
          rw [← hphys]; exact hfind
        rw [finishSelect_some s i hfind, finishSelect_some s' i hfind']
        exact ⟨rfl, hphys, rfl⟩
    | cons d rest =>
      rw [pickFirstDevice_cons, pickFirstDevice_cons]
      rcases hfind : findQueueFamily (familiesOf (some d)) requiredFlags with _ | i
      · rw [finishSelect_none _ hfind, finishSelect_none _ hfind]
        exact ⟨rfl, rfl, hq⟩
      · rw [finishSelect_some _ i hfind, finishSelect_some _ i hfind]
        exact ⟨rfl, rfl, rfl⟩

/-- Membership in a mask under bitwise AND is containment of every set bit. -/
lemma land_mask_eq_iff (flags m : Nat) :
    flags &&& m = m ↔ ∀ k, m.testBit k = true → flags.testBit k = true := by
  constructor
  · intro h k hk
    have hbit := congrArg (fun x => x.testBit k) h
    simp only [Nat.testBit_land] at hbit
    rw [hk] at hbit
    simpa using hbit
  · intro h
    apply Nat.eq_of_testBit_eq
    intro k
    rw [Nat.testBit_land]
    cases hk : m.testBit k with
    | false => simp
    | true => simp [h k hk]

/-- Example family list of spec testable property 3: a transfer-only family
followed by a combined graphics, compute and transfer family. -/
def exampleFamilies : List VkQueueFamilyProperties :=
  [{ queueFlags := VK_QUEUE_TRANSFER_BIT },
   { queueFlags := VK_QUEUE_GRAPHICS_BIT ||| VK_QUEUE_COMPUTE_BIT ||| VK_QUEUE_TRANSFER_BIT }]

/-- Required mask of spec testable property 3: graphics and compute. -/
def graphicsComputeMask : Nat := VK_QUEUE_GRAPHICS_BIT ||| VK_QUEUE_COMPUTE_BIT

/-! ### Claim theorems -/

/-- Claim C1: the queue family search of initPhysicalDevice scans the
considered device's families in enumeration order and succeeds exactly with
the index of the first family whose capability flags are a superset of the
required set (every required bit present under logical AND); in particular,
for families [transfer; graphics+compute+transfer] and required
graphics+compute it returns index 1. -/
theorem findQueueFamily_first_superset :
    (∀ (families : List VkQueueFamilyProperties) (required i : Nat),
        findQueueFamily families required = some i ↔
          ∃ f, families.get? i = some f ∧ f.queueFlags &&& required = required ∧
            ∀ j, j < i → ∀ g, families.get? j = some g →
              ¬(g.queueFlags &&& required = required))
    ∧ findQueueFamily exampleFamilies graphicsComputeMask = some 1 :=
  ⟨findQueueFamily_eq_some_iff, by decide⟩

/-- Witness for C1: the characterization applied to the spec's concrete
two-family example at index 1. -/
theorem findQueueFamily_first_superset_witness :
    ∃ f, exampleFamilies.get? 1 = some f ∧
      f.queueFlags &&& graphicsComputeMask = graphicsComputeMask ∧
      ∀ j, j < 1 → ∀ g, exampleFamilies.get? j = some g →
        ¬(g.queueFlags &&& graphicsComputeMask = graphicsComputeMask) :=
  (findQueueFamily_first_superset.1 exampleFamilies graphicsComputeMask 1).mp
    (by decide)

/-- Claim C2: selection only ever evaluates the first enumerated physical
device; whenever the first device of a non-empty enumeration has no queue
family containing all required flags, the selection of lines 85-107 reports
ERROR_NO_COMPATIBLE_QUEUE regardless of the remaining devices, and so does
initPhysicalDevice whenever its zero-count guard is passed. -/
theorem selection_first_device_only :
    ∀ (deviceCount : Nat) (b : Backend) (st : CrendState) (d : PhysicalDevice)
      (rest : List PhysicalDevice),
      0 < deviceCount →
      b.physicalDevices = d :: rest →
      (∀ f ∈ d.queueFamilies, ¬(f.queueFlags &&& requiredFlags = requiredFlags)) →
      (selectDeviceAndQueue deviceCount b st).2 = ERROR_NO_COMPATIBLE_QUEUE
      ∧ (0 < b.instanceLayers.length →
          (initPhysicalDevice b st).2 = ERROR_NO_COMPATIBLE_QUEUE) := by
  intro deviceCount b st d rest hpos hdev hno
  have hfind : findQueueFamily (familiesOf (some d)) requiredFlags = none :=
    (findQueueFamily_eq_none_iff _ _).mpr (by simpa [familiesOf] using hno)
  have hsel : ∀ k, 0 < k →
      selectDeviceAndQueue k b st = ({ st with physicalDevice := some d }, ERROR_NO_COMPATIBLE_QUEUE) := by
    intro k hk
    rw [selectDeviceAndQueue_cons k b st d rest hk hdev]
    exact finishSelect_none _ hfind
  constructor
  · rw [hsel deviceCount hpos]
  · intro hlayers
    unfold initPhysicalDevice
    rw [if_neg (by omega), hsel _ hlayers]

/-- Witness for C2: the first device is transfer-only, the second device
would satisfy every requirement, and selection still fails. -/
theorem selection_first_device_only_witness :
    (selectDeviceAndQueue 1 twoDeviceBackend st0).2 = ERROR_NO_COMPATIBLE_QUEUE
    ∧ (initPhysicalDevice twoDeviceBackend st0).2 = ERROR_NO_COMPATIBLE_QUEUE := by
  have h := selection_first_device_only 1 twoDeviceBackend st0 transferOnlyDevice
    [capableDevice] (by decide) rfl (by decide)
  exact ⟨h.1, h.2 (by decide)⟩

/-- Claim C3 records a code bug: the zero check of initPhysicalDevice uses a
count obtained from vkEnumerateInstanceLayerProperties (main.c line 80), so
a backend with zero instance layers and a non-empty, fully capable device
enumeration is still rejected with ERROR_VULKAN_UNSUPPORTED. -/
theorem initPhysicalDevice_layer_count_bug :
    noLayerBackend.physicalDevices = [capableDevice]
    ∧ (∃ f ∈ capableDevice.queueFamilies,
        f.queueFlags &&& requiredFlags = requiredFlags)
    ∧ noLayerBackend.instanceLayers = []
    ∧ (initPhysicalDevice noLayerBackend st0).2 = ERROR_VULKAN_UNSUPPORTED := by
  refine ⟨rfl, by decide, rfl, by decide⟩

/-- Claim C9: when selection over a non-empty device enumeration fails with
ERROR_NO_COMPATIBLE_QUEUE, the stored physical device has already been
overwritten with the first enumerated device while the stored queue family
index keeps its prior value. -/
theorem selection_failure_state_effects :
    ∀ (b : Backend) (st : CrendState) (d : PhysicalDevice)
      (rest : List PhysicalDevice),
      b.physicalDevices = d :: rest →
      (initPhysicalDevice b st).2 = ERROR_NO_COMPATIBLE_QUEUE →
      (initPhysicalDevice b st).1.physicalDevice = some d
      ∧ (initPhysicalDevice b st).1.queueFamilyIndex = st.queueFamilyIndex := by
  intro b st d rest hdev hres
  unfold initPhysicalDevice at hres ⊢
  by_cases hl : b.instanceLayers.length = 0
  · rw [if_pos hl] at hres
    simp [ERROR_VULKAN_UNSUPPORTED, ERROR_NO_COMPATIBLE_QUEUE] at hres
  · rw [if_neg hl] at hres ⊢
    rw [selectDeviceAndQueue_cons _ b st d rest (by omega) hdev] at hres ⊢
    rcases hfind : findQueueFamily (familiesOf (some d)) requiredFlags with _ | i
    · rw [finishSelect_none _ hfind]
      exact ⟨rfl, rfl⟩
    · rw [finishSelect_some _ i hfind] at hres
      simp [SUCCESS, ERROR_NO_COMPATIBLE_QUEUE] at hres

/-- Witness for C9: a failing selection has stored the transfer-only device
while the stale queue family index 42 survives. -/
theorem selection_failure_state_effects_witness :
    (initPhysicalDevice oneLayerBadBackend stPrior).1.physicalDevice = some transferOnlyDevice
    ∧ (initPhysicalDevice oneLayerBadBackend stPrior).1.queueFamilyIndex = 42 :=
  selection_failure_state_effects oneLayerBadBackend stPrior transferOnlyDevice []
    rfl (by decide)

/-- Containing the whole required mask is containing each of its three
bits. -/
lemma land_requiredFlags_iff (flags : Nat) :
    flags &&& requiredFlags = requiredFlags ↔
      (flags &&& VK_QUEUE_GRAPHICS_BIT = VK_QUEUE_GRAPHICS_BIT
       ∧ flags &&& VK_QUEUE_COMPUTE_BIT = VK_QUEUE_COMPUTE_BIT
       ∧ flags &&& VK_QUEUE_TRANSFER_BIT = VK_QUEUE_TRANSFER_BIT) := by
  have hreq : requiredFlags = 2 ^ 3 - 1 := by decide
  have hg : VK_QUEUE_GRAPHICS_BIT = 2 ^ 0 := by decide
  have hcp : VK_QUEUE_COMPUTE_BIT = 2 ^ 1 := by decide
  have htr : VK_QUEUE_TRANSFER_BIT = 2 ^ 2 := by decide
  rw [hreq, hg, hcp, htr, land_mask_eq_iff, land_mask_eq_iff, land_mask_eq_iff,
    land_mask_eq_iff]
  simp only [Nat.testBit_two_pow, Nat.testBit_two_pow_sub_one]
  constructor
  · intro h
    refine ⟨fun k hk => ?_, fun k hk => ?_, fun k hk => ?_⟩
    · have h0 : 0 = k := of_decide_eq_true hk
      exact h k (decide_eq_true (by omega))
    · have h1 : 1 = k := of_decide_eq_true hk
      exact h k (decide_eq_true (by omega))
    · have h2 : 2 = k := of_decide_eq_true hk
      exact h k (decide_eq_true (by omega))
  · rintro ⟨h0, h1, h2⟩ k hk
    have hk3 : k < 3 := of_decide_eq_true hk
    interval_cases k
    · exact h0 0 (by decide)
    · exact h1 1 (by decide)
    · exact h2 2 (by decide)

/-- Claim C4: crendInit runs instance creation, then selection, then
logical-device creation in that order, stops at the first failing step
returning its code and state unchanged by any later step, and succeeds
exactly when all three steps succeed. -/
theorem crendInit_sequencing :
    ∀ (exts : List String) (val : Bool) (b : Backend) (st : CrendState),
      ((initInstance exts val b st).2 ≠ SUCCESS →
          crendInit exts val b st = initInstance exts val b st)
      ∧ ((initInstance exts val b st).2 = SUCCESS →
          (initPhysicalDevice b (initInstance exts val b st).1).2 ≠ SUCCESS →
          crendInit exts val b st = initPhysicalDevice b (initInstance exts val b st).1)
      ∧ ((initInstance exts val b st).2 = SUCCESS →
          (initPhysicalDevice b (initInstance exts val b st).1).2 = SUCCESS →
          crendInit exts val b st =
            initLogicalDevice val b (initPhysicalDevice b (initInstance exts val b st).1).1)
      ∧ ((crendInit exts val b st).2 = SUCCESS ↔
          (initInstance exts val b st).2 = SUCCESS
          ∧ (initPhysicalDevice b (initInstance exts val b st).1).2 = SUCCESS
          ∧ (initLogicalDevice val b
              (initPhysicalDevice b (initInstance exts val b st).1).1).2 = SUCCESS) :=
  fun exts val b st =>
    ⟨crendInit_eq_step1 exts val b st, crendInit_eq_step2 exts val b st,
      crendInit_eq_step3 exts val b st, crendInit_succ_iff exts val b st⟩

/-- Witness for C4: with the validation layer missing, crendInit returns
exactly the failing instance step's result. -/
theorem crendInit_sequencing_witness :
    crendInit [] true noLayerBackend st0 = initInstance [] true noLayerBackend st0 :=
  (crendInit_sequencing [] true noLayerBackend st0).1 (by decide)

/-- Claim C5: with validation enabled and the validation layer absent from
the backend's layer enumeration, initialization returns
ERROR_VALIDATION_LAYERS with the state untouched (no instance created);
when the layer is present or validation is off, the instance step never
returns this error. -/
theorem initInstance_validation_layers :
    ∀ (exts : List String) (val : Bool) (b : Backend) (st : CrendState),
      (val = true → VALIDATION_LAYER_NAME ∉ b.instanceLayers →
          initInstance exts val b st = (st, ERROR_VALIDATION_LAYERS)
          ∧ crendInit exts val b st = (st, ERROR_VALIDATION_LAYERS))
      ∧ ((val = false ∨ VALIDATION_LAYER_NAME ∈ b.instanceLayers) →
          (initInstance exts val b st).2 ≠ ERROR_VALIDATION_LAYERS) := by
  intro exts val b st
  constructor
  · intro hval hmem
    subst hval
    have hchk : checkValidationLayerSupport b = false := by
      unfold checkValidationLayerSupport
      cases hcl : containsValidationLayer b.instanceLayers with
      | false => rfl
      | true => exact absurd ((containsValidationLayer_iff _).mp hcl) hmem
    have hinst : initInstance exts true b st = (st, ERROR_VALIDATION_LAYERS) := by
      unfold initInstance
      simp [hchk]
    have hne : (initInstance exts true b st).2 ≠ SUCCESS := by
      rw [hinst]
      simp [ERROR_VALIDATION_LAYERS, SUCCESS]
    exact ⟨hinst, by rw [crendInit_eq_step1 exts true b st hne]; exact hinst⟩
  · intro hor
    have hcond : (val && ! checkValidationLayerSupport b) = false := by
      rcases hor with hval | hmem
      · subst hval; rfl
      · have hh : checkValidationLayerSupport b = true := by
          unfold checkValidationLayerSupport
          exact (containsValidationLayer_iff _).mpr hmem
        simp [hh]
    unfold initInstance
    rcases hc : b.vkCreateInstance (instanceCreateInfo exts val) with _ | h <;>
      simp [hcond, hc, SUCCESS, ERROR_INSTANCE_CREATION, ERROR_VALIDATION_LAYERS]

/-- Witness for C5: validation requested against a backend with no layers. -/
theorem initInstance_validation_layers_witness :
    initInstance [] true noLayerBackend st0 = (st0, ERROR_VALIDATION_LAYERS)
    ∧ crendInit [] true noLayerBackend st0 = (st0, ERROR_VALIDATION_LAYERS) :=
  (initInstance_validation_layers [] true noLayerBackend st0).1 rfl (by decide)

/-- Claim C6: when logical-device creation fails after instance creation
succeeded, crendInit reports ERROR_CANNOT_CREATE_LOGICAL_DEVICE while the
instance handle created earlier is still stored unchanged: no rollback
happens on this path. -/
theorem crendInit_no_rollback_on_device_failure :
    ∀ (exts : List String) (val : Bool) (b : Backend) (st : CrendState),
      (initInstance exts val b st).2 = SUCCESS →
      (initPhysicalDevice b (initInstance exts val b st).1).2 = SUCCESS →
      (initLogicalDevice val b (initPhysicalDevice b (initInstance exts val b st).1).1).2
          = ERROR_CANNOT_CREATE_LOGICAL_DEVICE →
      (crendInit exts val b st).2 = ERROR_CANNOT_CREATE_LOGICAL_DEVICE
      ∧ (crendInit exts val b st).1.instanceHandle
          = (initInstance exts val b st).1.instanceHandle
      ∧ ∃ hI, (initInstance exts val b st).1.instanceHandle = some hI := by
  intro exts val b st h1 h2 h3
  have heq := crendInit_eq_step3 exts val b st h1 h2
  have hfail := initLogicalDevice_fail_state val b
    (initPhysicalDevice b (initInstance exts val b st).1).1 h3
  rw [heq, hfail]
  exact ⟨rfl, (initPhysicalDevice_frame b (initInstance exts val b st).1).1,
    initInstance_success_handle exts val b st h1⟩

/-- Witness for C6: a backend whose vkCreateDevice always fails. -/
theorem crendInit_no_rollback_on_device_failure_witness :
    (crendInit [] false deviceFailBackend st0).2 = ERROR_CANNOT_CREATE_LOGICAL_DEVICE
    ∧ (crendInit [] false deviceFailBackend st0).1.instanceHandle
        = (initInstance [] false deviceFailBackend st0).1.instanceHandle
    ∧ ∃ hI, (initInstance [] false deviceFailBackend st0).1.instanceHandle = some hI :=
  crendInit_no_rollback_on_device_failure [] false deviceFailBackend st0
    (by decide) (by decide) (by decide)

/-- Claim C7: the selector is a pure function of the backend descriptors
and the prior selection state: re-running it on its own output changes
nothing (same stored selection, same result code), and it touches no state
beyond its result, leaving the instance, device and queue handles as they
were. -/
theorem initPhysicalDevice_pure_idempotent :
    ∀ (b : Backend) (st : CrendState),
      initPhysicalDevice b (initPhysicalDevice b st).1 = initPhysicalDevice b st
      ∧ (initPhysicalDevice b st).1.instanceHandle = st.instanceHandle
      ∧ (initPhysicalDevice b st).1.device = st.device
      ∧ (initPhysicalDevice b st).1.primaryQueue = st.primaryQueue :=
  fun b st => ⟨initPhysicalDevice_idem b st, initPhysicalDevice_frame b st⟩

/-- Witness for C7: idempotence observed on a concrete backend. -/
theorem initPhysicalDevice_pure_idempotent_witness :
    initPhysicalDevice oneLayerBadBackend (initPhysicalDevice oneLayerBadBackend st0).1
      = initPhysicalDevice oneLayerBadBackend st0 :=
  (initPhysicalDevice_pure_idempotent oneLayerBadBackend st0).1

/-- Claim C8: the required capability set used by selection is the fixed
constant graphics+compute+transfer (a mask a family's flags satisfy exactly
when every one of the three bits is present), and the requiredExtensions
argument of crendInit cannot alter the selection step's result code, stored
device or stored queue family index. -/
theorem requiredFlags_constant_and_extensions_irrelevant :
    (requiredFlags = VK_QUEUE_GRAPHICS_BIT ||| VK_QUEUE_COMPUTE_BIT ||| VK_QUEUE_TRANSFER_BIT)
    ∧ (∀ flags : Nat,
        flags &&& requiredFlags = requiredFlags ↔
          (flags &&& VK_QUEUE_GRAPHICS_BIT = VK_QUEUE_GRAPHICS_BIT
           ∧ flags &&& VK_QUEUE_COMPUTE_BIT = VK_QUEUE_COMPUTE_BIT
           ∧ flags &&& VK_QUEUE_TRANSFER_BIT = VK_QUEUE_TRANSFER_BIT))
    ∧ (∀ (exts exts' : List String) (val : Bool) (b : Backend) (st : CrendState),
        (initPhysicalDevice b (initInstance exts val b st).1).2
            = (initPhysicalDevice b (initInstance exts' val b st).1).2
        ∧ (initPhysicalDevice b (initInstance exts val b st).1).1.physicalDevice
            = (initPhysicalDevice b (initInstance exts' val b st).1).1.physicalDevice
        ∧ (initPhysicalDevice b (initInstance exts val b st).1).1.queueFamilyIndex
            = (initPhysicalDevice b (initInstance exts' val b st).1).1.queueFamilyIndex) := by
  refine ⟨rfl, land_requiredFlags_iff, ?_⟩
  intro exts exts' val b st
  apply initPhysicalDevice_congr
  · rw [(initInstance_frame exts val b st).1, (initInstance_frame exts' val b st).1]
  · rw [(initInstance_frame exts val b st).2.1, (initInstance_frame exts' val b st).2.1]

/-- Witness for C8: changing the extension list does not change the
selection step's result code. -/
theorem requiredFlags_constant_and_extensions_irrelevant_witness :
    (initPhysicalDevice goodBackend (initInstance ["VK_KHR_surface"] false goodBackend st0).1).2
      = (initPhysicalDevice goodBackend (initInstance [] false goodBackend st0).1).2 :=
  (requiredFlags_constant_and_extensions_irrelevant.2.2
    ["VK_KHR_surface"] [] false goodBackend st0).1

/-- Claim C10: every successful initialization created the logical device
through a vkCreateDevice call whose create info holds exactly one queue
request, with queue count 1 and the single priority 1, on the selected
queue family, and fetched the primary queue at queue index 0 of that
family. -/
theorem crendInit_single_queue_request :
    ∀ (exts : List String) (val : Bool) (b : Backend) (st : CrendState),
      (crendInit exts val b st).2 = SUCCESS →
      (deviceCreateInfoOf ((crendInit exts val b st).1.queueFamilyIndex) val).queueCreateInfos
        = [{ queueFamilyIndex := (crendInit exts val b st).1.queueFamilyIndex
             queueCount := 1
             queuePriorities := [1] }]
      ∧ ∃ dh : Nat,
          b.vkCreateDevice ((crendInit exts val b st).1.physicalDevice)
              (deviceCreateInfoOf ((crendInit exts val b st).1.queueFamilyIndex) val) = some dh
          ∧ (crendInit exts val b st).1.device = some dh
          ∧ (crendInit exts val b st).1.primaryQueue
              = some (b.vkGetDeviceQueue dh ((crendInit exts val b st).1.queueFamilyIndex) 0) := by
  intro exts val b st hs
  obtain ⟨h1, h2, h3⟩ := (crendInit_succ_iff exts val b st).mp hs
  obtain ⟨dh, hc, hshape⟩ := initLogicalDevice_success_shape val b
    (initPhysicalDevice b (initInstance exts val b st).1).1 h3
  have heq := crendInit_eq_step3 exts val b st h1 h2
  rw [heq, hshape]
  exact ⟨rfl, dh, hc, rfl, rfl⟩

/-- Witness for C10: a fully successful run on a concrete backend. -/
theorem crendInit_single_queue_request_witness :
    (deviceCreateInfoOf ((crendInit [] false goodBackend st0).1.queueFamilyIndex) false).queueCreateInfos
      = [{ queueFamilyIndex := (crendInit [] false goodBackend st0).1.queueFamilyIndex
           queueCount := 1
           queuePriorities := [1] }]
    ∧ ∃ dh : Nat,
        goodBackend.vkCreateDevice ((crendInit [] false goodBackend st0).1.physicalDevice)
            (deviceCreateInfoOf ((crendInit [] false goodBackend st0).1.queueFamilyIndex) false)
          = some dh
        ∧ (crendInit [] false goodBackend st0).1.device = some dh
        ∧ (crendInit [] false goodBackend st0).1.primaryQueue
            = some (goodBackend.vkGetDeviceQueue dh
                ((crendInit [] false goodBackend st0).1.queueFamilyIndex) 0) :=
  crendInit_single_queue_request [] false goodBackend st0 (by decide)
